import Mathlib

/-!
Verification of the fam450 package (FAM 450 allowed-deviations calculator).

The source is `src/fam450/fam450.py`: a class `fam450ss` holding sample size
`n`, tolerable rate of deviation `trd` and risk of overreliance `ovr`; a
linear-scan search `allowed_deviations` over one-sided exact binomial tail
probabilities; two text-rendering methods `detailed_results` and
`simple_results`; and two zero-argument table builders `fam450lt` and
`fam450gt`.

The binomial tail probabilities are obtained in the source from the external
collaborator `scipy.stats.binomtest`, which is not part of this repository;
it is modelled here from the specification of the exact one-sided binomial
tail function (probability mass summed over the lower or upper tail, with
input validation).  All arithmetic is exact rational arithmetic; the source
computes with floating point, but at every concrete input evaluated in this
development the compared quantities are far from the decision boundaries, so
the comparisons coincide.
-/

deriving instance DecidableEq for Except

attribute [local semireducible] Rat.mul Rat.add Rat.sub Rat.inv Rat.ofScientific

set_option maxRecDepth 100000

set_option maxHeartbeats 1600000

namespace Fam450

/-- Errors raised while running the calculator.  The source raises Python
`ValueError` directly for the unsupported-alternative and the
reporting-before-search cases (`valueError`); the modelled external tail
function signals its input validation failures as `invalidParameter`. -/
inductive FamError where
  | invalidParameter (msg : String)
  | valueError (msg : String)
deriving DecidableEq, Repr

/-- Binomial coefficient C(n, k), by the factorial formula, zero for k > n. -/
def binomCoeff (n k : ℕ) : ℕ :=
  if k ≤ n then n.factorial / (k.factorial * (n - k).factorial) else 0

/-- Probability mass P(X = i) of X ~ Binomial(n, p):
C(n, i) * p^i * (1-p)^(n-i). -/
def binomPMF (n : ℕ) (p : ℚ) (i : ℕ) : ℚ :=
  (binomCoeff n i : ℚ) * p ^ i * (1 - p) ^ (n - i)

/-- Lower tail P(X ≤ k) = sum over i = 0..k of the probability mass. -/
def binomCDF (n : ℕ) (p : ℚ) : ℕ → ℚ
  | 0 => binomPMF n p 0
  | k + 1 => binomCDF n p k + binomPMF n p (k + 1)

/-- Partial upper-tail sums: `binomSFAux n p k j` is the sum of the
probability mass over i = k .. k+j. -/
def binomSFAux (n : ℕ) (p : ℚ) (k : ℕ) : ℕ → ℚ
  | 0 => binomPMF n p k
  | j + 1 => binomSFAux n p k j + binomPMF n p (k + j + 1)

/-- Upper tail P(X ≥ k) = sum over i = k..n of the probability mass
(zero when k > n). -/
def binomSF (n : ℕ) (p : ℚ) (k : ℕ) : ℚ :=
  if k ≤ n then binomSFAux n p k (n - k) else 0

/-- Modelled from the spec: the exact one-sided binomial-test tail function
provided by the external statistics library (the source calls
`scipy.stats.binomtest(k, n, p, alternative).pvalue`, which is not part of
this repository).  Per the spec's tail-function contract it returns
P(X ≤ k) for the "less" direction and P(X ≥ k) for the "greater"
direction, and fails with an InvalidParameter error when k > n or when p
lies outside (0, 1); k and n are naturals here, so the negativity failures
cannot arise. -/
def binomtest (k n : ℕ) (p : ℚ) (alternative : String) : Except FamError ℚ :=
  if n < k then .error (.invalidParameter "k must not be greater than n")
  else if p ≤ 0 ∨ 1 ≤ p then .error (.invalidParameter "p must be in range (0, 1)")
  else if alternative = "less" then .ok (binomCDF n p k)
  else if alternative = "greater" then .ok (binomSF n p k)
  else .error (.invalidParameter ("alternative not recognized: " ++ alternative))

/-- The loop guard of the source's "less" branch at a given k, with Python's
short-circuit `and`: `binomtest(k).pvalue < ovr and
binomtest(k+1).pvalue >= ovr`.  A raised error in either tail evaluation
propagates. -/
def lessCond (n : ℕ) (trd ovr : ℚ) (k : ℕ) : Except FamError Bool :=
  match binomtest k n trd "less" with
  | .error e => .error e
  | .ok p1 =>
    if p1 < ovr then
      match binomtest (k + 1) n trd "less" with
      | .error e => .error e
      | .ok p2 => .ok (decide (ovr ≤ p2))
    else .ok false

/-- The loop guard of the source's "greater" branch at a given k, with
Python's short-circuit `and`: `binomtest(k).pvalue >= ovr and
binomtest(k+1).pvalue < ovr`. -/
def greaterCond (n : ℕ) (trd ovr : ℚ) (k : ℕ) : Except FamError Bool :=
  match binomtest k n trd "greater" with
  | .error e => .error e
  | .ok p1 =>
    if ovr ≤ p1 then
      match binomtest (k + 1) n trd "greater" with
      | .error e => .error e
      | .ok p2 => .ok (decide (p2 < ovr))
    else .ok false

/-- The source's `while not cond: k = k + 1` loop, starting from a given k.
The source imposes no bound of its own; the fuel argument is only a
recursion measure, and with the fuel `n + 2` used below the exhaustion
branch is unreachable, because both loop guards raise by k = n + 1 at the
latest (the tail function rejects k > n). -/
def scanLoop (cond : ℕ → Except FamError Bool) : ℕ → ℕ → Except FamError ℕ
  | 0, _ => .error (.invalidParameter "loop fuel exhausted")
  | fuel + 1, k =>
    match cond k with
    | .error e => .error e
    | .ok true => .ok k
    | .ok false => scanLoop cond fuel (k + 1)

/-- The pure content of `fam450ss.allowed_deviations`: dispatch on the
alternative, then scan k = 0, 1, 2, ... for the first k whose loop guard
holds.  An unrecognized alternative raises
`ValueError(f"Unsupported alternative: {alt}")`. -/
def findThreshold (n : ℕ) (trd ovr : ℚ) (alt : String) : Except FamError ℕ :=
  if alt = "less" then scanLoop (lessCond n trd ovr) (n + 2) 0
  else if alt = "greater" then scanLoop (greaterCond n trd ovr) (n + 2) 0
  else .error (.valueError ("Unsupported alternative: " ++ alt))

/-- The state of a `fam450ss` instance: the three constructor fields, plus
the optional pair of attributes `(alt, k)` that `allowed_deviations` sets
on success.  In the source the two attributes are always set together, and
`hasattr` on both is how the reporting methods detect their absence, so a
single `Option` of the pair models that state. -/
structure fam450ss where
  n : ℕ
  trd : ℚ
  ovr : ℚ
  result : Option (String × ℕ)
deriving DecidableEq, Repr

/-- `fam450ss.__init__`: stores the three fields unchecked (the source
validates nothing and documents `Raises: None`); no search result exists
yet. -/
def fam450ss.init (n : ℕ) (trd : ℚ) (ovr : ℚ) : fam450ss :=
  { n := n, trd := trd, ovr := ovr, result := none }

/-- `fam450ss.allowed_deviations`: run the search; on success store
`(alt, k)` on the instance (overwriting any previous result) and return k;
on error the instance is unchanged, because the source's assignments to
`self.alt` and `self.k` come after the loop and are skipped when the loop
or the dispatch raises. -/
def fam450ss.allowed_deviations (self : fam450ss) (alt : String) :
    Except FamError ℕ × fam450ss :=
  match findThreshold self.n self.trd self.ovr alt with
  | .ok k => (.ok k, { self with result := some (alt, k) })
  | .error e => (.error e, self)

/-! ### Text rendering

The reporting methods print Python f-strings.  They are modelled as
functions returning the text handed to `print` (the trailing newline that
`print` itself appends is part of the I/O mechanism, not of the rendered
text).  The numeric interpolations are Python format specifiers:
`{x:.0%}` and `{x:.2%}` format a percentage with banker's rounding, and
`{x:,}` inserts thousands separators.  Python applies them to binary
floating-point values; here they are computed on exact rationals, which
agrees at every concrete input evaluated in this development (the rounded
quantities are far from decimal ties). -/

/-- Round a nonnegative rational to the nearest natural, ties to even
(the rounding Python's string formatting applies). -/
def roundHE (q : ℚ) : ℕ :=
  let a := q.num.toNat
  let d := q.den
  let w := a / d
  let r := a % d
  if 2 * r < d then w
  else if d < 2 * r then w + 1
  else if w % 2 = 0 then w else w + 1

/-- Python's percent format with no decimal places, `{q:.0%}`. -/
def percent0 (q : ℚ) : String :=
  toString (roundHE (100 * q)) ++ "%"

/-- Python's percent format with two decimal places, `{q:.2%}`. -/
def percent2 (q : ℚ) : String :=
  let m := roundHE (10000 * q)
  toString (m / 100) ++ "." ++ (if m % 100 < 10 then "0" else "") ++
    toString (m % 100) ++ "%"

/-- Helper for the thousands-separator format: walks the digits least
significant first and puts a comma before every third digit. -/
def commasAux : ℕ → List Char → List Char
  | _, [] => []
  | i, c :: cs =>
    if i ≠ 0 ∧ i % 3 = 0 then ',' :: c :: commasAux (i + 1) cs
    else c :: commasAux (i + 1) cs

/-- Python's thousands-separator format for a natural number, `{x:,}`. -/
def natCommas (x : ℕ) : String :=
  String.mk (commasAux 0 (toString x).data.reverse).reverse

/-- The f-string printed by `detailed_results` when the stored alternative
is "less" (source line 123). -/
def detailedLessText (n k : ℕ) (trd ovr : ℚ) : String :=
  "Null Hypothesis: The true tolerable rate of deviation is " ++ percent0 trd ++
  " or more.\nAlternative Hypothesis: The true tolerable rate of deviation is less than " ++
  percent0 trd ++ ".\n\nIf the experimenter observes " ++ natCommas k ++
  " deviations or less in a sample size of " ++ natCommas n ++ " (" ++
  percent2 ((k : ℚ) / (n : ℚ)) ++ "), they can reject with " ++
  percent0 (1 - ovr) ++
  " confidence the null hypothesis that the true tolerable rate of deviation is " ++
  percent0 trd ++ " or more in favor of the alternative that it\x27s less than " ++
  percent0 trd ++ ".  If the experimenter observes more than " ++ natCommas k ++
  " deviations, they fail to reject the null hypothesis, but cannot say the true tolerable rate of deviation is " ++
  percent0 trd ++ " or more."

/-- The f-string printed by `detailed_results` when the stored alternative
is "greater" (source line 126). -/
def detailedGreaterText (n k : ℕ) (trd ovr : ℚ) : String :=
  "Null Hypothesis: The true tolerable rate of deviation is at most " ++
  percent0 trd ++
  ".\nAlternative Hypothesis: The true tolerable rate of deviation is greater than " ++
  percent0 trd ++ ".\n\nIf the experimenter observes more than " ++ natCommas k ++
  " deviations in a sample size of " ++ natCommas n ++ " (" ++
  percent2 ((k : ℚ) / (n : ℚ)) ++ "), they can reject with " ++
  percent0 (1 - ovr) ++
  " confidence the null hypothesis that the true tolerable rate of deviation is at most " ++
  percent0 trd ++ " in favor of the alternative that it\x27s greater than " ++
  percent0 trd ++ ".  If the experimenter observes " ++ natCommas k ++
  " or fewer deviations, they fail to reject the null hypothesis, but cannot say the true tolerable rate of deviation is at most " ++
  percent0 trd ++ "."

/-- `fam450ss.detailed_results`: raises
`ValueError("You must run allowed_deviations() before detailed_results().")`
when the search attributes are absent; otherwise renders the text of the
two conditional prints (at most one fires, keyed on the stored
alternative). -/
def fam450ss.detailed_results (self : fam450ss) : Except FamError String :=
  match self.result with
  | none =>
    .error (.valueError "You must run allowed_deviations() before detailed_results().")
  | some (alt, k) =>
    .ok ((if alt = "less" then detailedLessText self.n k self.trd self.ovr else "") ++
      (if alt = "greater" then detailedGreaterText self.n k self.trd self.ovr else ""))

/-- The sentence printed by `simple_results` for the "less" alternative
(source line 160). -/
def simpleLessText (k : ℕ) : String :=
  natCommas k ++
  " is the maximum number of allowed deviations that an experimenter has enough evidence to determine the internal controls are effective."

/-- The sentence printed by `simple_results` for the "greater" alternative
(source line 163). -/
def simpleGreaterText (k : ℕ) : String :=
  natCommas k ++
  " is the minimum number of allowed deviations, after which an experimenter has enough evidence to determine the internal controls are ineffective."

/-- `fam450ss.simple_results`: raises
`ValueError("You must run allowed_deviations() before simple_results().")`
when the search attributes are absent; otherwise renders the one-sentence
summary for the stored alternative. -/
def fam450ss.simple_results (self : fam450ss) : Except FamError String :=
  match self.result with
  | none =>
    .error (.valueError "You must run allowed_deviations() before simple_results().")
  | some (alt, k) =>
    .ok ((if alt = "less" then simpleLessText k else "") ++
      (if alt = "greater" then simpleGreaterText k else ""))

/-! ### Standard table reproduction -/

/-- The labeled table the zero-argument builders return: the pandas
DataFrame's index name, row index (sample sizes, in insertion order),
column names, and one pair of entries per row. -/
structure Fam450Table where
  indexName : String
  sampleSizes : List ℕ
  columns : List String
  rows : List (ℕ × ℕ)
deriving DecidableEq, Repr

/-- `fam450lt`: reproduce the FAM 450 tables for the less-than alternative,
overreliance risk 10%: ten fresh instances over sample sizes
45, 78, 105, 132, 158 and tolerable rates 0.05, 0.1, each searched with
alt = "less", assembled row by row. -/
def fam450lt : Except FamError Fam450Table := do
  let r11 ← ((fam450ss.init 45 0.05 0.1).allowed_deviations "less").1
  let r12 ← ((fam450ss.init 45 0.1 0.1).allowed_deviations "less").1
  let r21 ← ((fam450ss.init 78 0.05 0.1).allowed_deviations "less").1
  let r22 ← ((fam450ss.init 78 0.1 0.1).allowed_deviations "less").1
  let r31 ← ((fam450ss.init 105 0.05 0.1).allowed_deviations "less").1
  let r32 ← ((fam450ss.init 105 0.1 0.1).allowed_deviations "less").1
  let r41 ← ((fam450ss.init 132 0.05 0.1).allowed_deviations "less").1
  let r42 ← ((fam450ss.init 132 0.1 0.1).allowed_deviations "less").1
  let r51 ← ((fam450ss.init 158 0.05 0.1).allowed_deviations "less").1
  let r52 ← ((fam450ss.init 158 0.1 0.1).allowed_deviations "less").1
  pure { indexName := "Sample Size",
         sampleSizes := [45, 78, 105, 132, 158],
         columns := ["Tolerable Deviation Rate of 5%", "Tolerable Deviation Rate of 10%"],
         rows := [(r11, r12), (r21, r22), (r31, r32), (r41, r42), (r51, r52)] }

/-- `fam450gt`: the same ten searches with alt = "greater". -/
def fam450gt : Except FamError Fam450Table := do
  let r11 ← ((fam450ss.init 45 0.05 0.1).allowed_deviations "greater").1
  let r12 ← ((fam450ss.init 45 0.1 0.1).allowed_deviations "greater").1
  let r21 ← ((fam450ss.init 78 0.05 0.1).allowed_deviations "greater").1
  let r22 ← ((fam450ss.init 78 0.1 0.1).allowed_deviations "greater").1
  let r31 ← ((fam450ss.init 105 0.05 0.1).allowed_deviations "greater").1
  let r32 ← ((fam450ss.init 105 0.1 0.1).allowed_deviations "greater").1
  let r41 ← ((fam450ss.init 132 0.05 0.1).allowed_deviations "greater").1
  let r42 ← ((fam450ss.init 132 0.1 0.1).allowed_deviations "greater").1
  let r51 ← ((fam450ss.init 158 0.05 0.1).allowed_deviations "greater").1
  let r52 ← ((fam450ss.init 158 0.1 0.1).allowed_deviations "greater").1
  pure { indexName := "Sample Size",
         sampleSizes := [45, 78, 105, 132, 158],
         columns := ["Tolerable Deviation Rate of 5%", "Tolerable Deviation Rate of 10%"],
         rows := [(r11, r12), (r21, r22), (r31, r32), (r41, r42), (r51, r52)] }

/-! ### Inversion lemmas for the tail function and the loop guards -/

/-- The binomial coefficient used here agrees with Mathlib's `Nat.choose`. -/
lemma binomCoeff_eq_choose (n k : ℕ) : binomCoeff n k = n.choose k := by
  unfold binomCoeff
  split
  · exact (Nat.choose_eq_factorial_div_factorial (by assumption)).symm
  · rw [Nat.choose_eq_zero_of_lt (by omega)]

lemma binomtest_less_ok {k n : ℕ} {p : ℚ} (hkn : k ≤ n) (h0 : 0 < p) (h1 : p < 1) :
    binomtest k n p "less" = .ok (binomCDF n p k) := by
  unfold binomtest
  rw [if_neg (by omega : ¬ n < k)]
  rw [if_neg (show ¬(p ≤ 0 ∨ 1 ≤ p) from fun hc =>
    hc.elim (fun hh => absurd hh (not_le.mpr h0)) (fun hh => absurd hh (not_le.mpr h1)))]
  rw [if_pos rfl]

lemma binomtest_greater_ok {k n : ℕ} {p : ℚ} (hkn : k ≤ n) (h0 : 0 < p) (h1 : p < 1) :
    binomtest k n p "greater" = .ok (binomSF n p k) := by
  unfold binomtest
  rw [if_neg (by omega : ¬ n < k)]
  rw [if_neg (show ¬(p ≤ 0 ∨ 1 ≤ p) from fun hc =>
    hc.elim (fun hh => absurd hh (not_le.mpr h0)) (fun hh => absurd hh (not_le.mpr h1)))]
  rw [if_neg (by decide : ¬("greater" : String) = "less"), if_pos rfl]

lemma binomtest_ok_inv {k n : ℕ} {p q : ℚ} {alt : String}
    (h : binomtest k n p alt = .ok q) : k ≤ n ∧ 0 < p ∧ p < 1 := by
  unfold binomtest at h
  by_cases h1 : n < k
  · rw [if_pos h1] at h; simp at h
  · rw [if_neg h1] at h
    by_cases h2 : p ≤ 0 ∨ 1 ≤ p
    · rw [if_pos h2] at h; simp at h
    · push_neg at h2
      exact ⟨by omega, h2.1, h2.2⟩

lemma binomtest_less_ok_inv {k n : ℕ} {p q : ℚ}
    (h : binomtest k n p "less" = .ok q) :
    k ≤ n ∧ 0 < p ∧ p < 1 ∧ q = binomCDF n p k := by
  obtain ⟨hkn, h0, h1⟩ := binomtest_ok_inv h
  rw [binomtest_less_ok hkn h0 h1] at h
  exact ⟨hkn, h0, h1, by injection h with h; exact h.symm⟩

lemma binomtest_greater_ok_inv {k n : ℕ} {p q : ℚ}
    (h : binomtest k n p "greater" = .ok q) :
    k ≤ n ∧ 0 < p ∧ p < 1 ∧ q = binomSF n p k := by
  obtain ⟨hkn, h0, h1⟩ := binomtest_ok_inv h
  rw [binomtest_greater_ok hkn h0 h1] at h
  exact ⟨hkn, h0, h1, by injection h with h; exact h.symm⟩

lemma binomtest_err_k {k n : ℕ} {p : ℚ} {alt : String} (hk : n < k) :
    binomtest k n p alt = .error (.invalidParameter "k must not be greater than n") := by
  unfold binomtest
  rw [if_pos hk]

lemma binomtest_err_p {k n : ℕ} {p : ℚ} {alt : String} (hk : k ≤ n)
    (hp : p ≤ 0 ∨ 1 ≤ p) :
    binomtest k n p alt = .error (.invalidParameter "p must be in range (0, 1)") := by
  unfold binomtest
  rw [if_neg (by omega : ¬ n < k), if_pos hp]

/-- Closed form of the "less" loop guard on validated inputs. -/
lemma lessCond_eq {n : ℕ} {trd ovr : ℚ} {k : ℕ}
    (hk : k ≤ n) (h0 : 0 < trd) (h1 : trd < 1) :
    lessCond n trd ovr k =
      if binomCDF n trd k < ovr then
        (if k + 1 ≤ n then .ok (decide (ovr ≤ binomCDF n trd (k + 1)))
         else .error (.invalidParameter "k must not be greater than n"))
      else .ok false := by
  unfold lessCond
  rw [binomtest_less_ok hk h0 h1]
  by_cases h2 : k + 1 ≤ n
  · rw [binomtest_less_ok h2 h0 h1, if_pos h2]
  · rw [binomtest_err_k (by omega : n < k + 1), if_neg h2]

/-- Closed form of the "greater" loop guard on validated inputs. -/
lemma greaterCond_eq {n : ℕ} {trd ovr : ℚ} {k : ℕ}
    (hk : k ≤ n) (h0 : 0 < trd) (h1 : trd < 1) :
    greaterCond n trd ovr k =
      if ovr ≤ binomSF n trd k then
        (if k + 1 ≤ n then .ok (decide (binomSF n trd (k + 1) < ovr))
         else .error (.invalidParameter "k must not be greater than n"))
      else .ok false := by
  unfold greaterCond
  rw [binomtest_greater_ok hk h0 h1]
  by_cases h2 : k + 1 ≤ n
  · rw [binomtest_greater_ok h2 h0 h1, if_pos h2]
  · rw [binomtest_err_k (by omega : n < k + 1), if_neg h2]

lemma lessCond_err_beyond {n : ℕ} {trd ovr : ℚ} {k : ℕ} (hk : n < k) :
    lessCond n trd ovr k = .error (.invalidParameter "k must not be greater than n") := by
  unfold lessCond
  rw [binomtest_err_k hk]

lemma greaterCond_err_beyond {n : ℕ} {trd ovr : ℚ} {k : ℕ} (hk : n < k) :
    greaterCond n trd ovr k = .error (.invalidParameter "k must not be greater than n") := by
  unfold greaterCond
  rw [binomtest_err_k hk]

lemma lessCond_err_p {n : ℕ} {trd ovr : ℚ} {k : ℕ} (hk : k ≤ n)
    (hp : trd ≤ 0 ∨ 1 ≤ trd) :
    lessCond n trd ovr k = .error (.invalidParameter "p must be in range (0, 1)") := by
  unfold lessCond
  rw [binomtest_err_p hk hp]

lemma greaterCond_err_p {n : ℕ} {trd ovr : ℚ} {k : ℕ} (hk : k ≤ n)
    (hp : trd ≤ 0 ∨ 1 ≤ trd) :
    greaterCond n trd ovr k = .error (.invalidParameter "p must be in range (0, 1)") := by
  unfold greaterCond
  rw [binomtest_err_p hk hp]

lemma scanLoop_succ (cond : ℕ → Except FamError Bool) (fuel k : ℕ) :
    scanLoop cond (fuel + 1) k =
      match cond k with
      | .error e => .error e
      | .ok true => .ok k
      | .ok false => scanLoop cond fuel (k + 1) := rfl

/-- Indices whose guard evaluates to false are skipped by the loop. -/
lemma scanLoop_skip (cond : ℕ → Except FamError Bool) :
    ∀ (d fuel k0 : ℕ), (∀ j, k0 ≤ j → j < k0 + d → cond j = .ok false) →
      scanLoop cond (d + fuel) k0 = scanLoop cond fuel (k0 + d) := by
  intro d
  induction d with
  | zero => intro fuel k0 h; simp
  | succ d ih =>
    intro fuel k0 h
    rw [show d + 1 + fuel = d + fuel + 1 from by omega, scanLoop_succ]
    simp only [h k0 le_rfl (by omega)]
    rw [ih fuel (k0 + 1) (fun j hj1 hj2 => h j (by omega) (by omega))]
    congr 1
    omega

/-- Continuing the "less" scan at k = n on validated inputs always ends in
the tail function's k>n error within two further guard evaluations: either
the guard at n itself evaluates the tail at n+1, or the loop moves to
k = n+1 where the first tail evaluation is already out of range. -/
lemma scanLoop_less_from_n {n : ℕ} {trd ovr : ℚ} (h0 : 0 < trd) (h1 : trd < 1) :
    scanLoop (lessCond n trd ovr) 2 n =
      .error (.invalidParameter "k must not be greater than n") := by
  show scanLoop (lessCond n trd ovr) (1 + 1) n = _
  rw [scanLoop_succ, lessCond_eq le_rfl h0 h1]
  by_cases hlt : binomCDF n trd n < ovr
  · rw [if_pos hlt, if_neg (by omega : ¬ n + 1 ≤ n)]
  · rw [if_neg hlt]
    show scanLoop (lessCond n trd ovr) (0 + 1) (n + 1) = _
    rw [scanLoop_succ, lessCond_err_beyond (by omega : n < n + 1)]

/-- Same as `scanLoop_less_from_n` for the "greater" direction. -/
lemma scanLoop_greater_from_n {n : ℕ} {trd ovr : ℚ} (h0 : 0 < trd) (h1 : trd < 1) :
    scanLoop (greaterCond n trd ovr) 2 n =
      .error (.invalidParameter "k must not be greater than n") := by
  show scanLoop (greaterCond n trd ovr) (1 + 1) n = _
  rw [scanLoop_succ, greaterCond_eq le_rfl h0 h1]
  by_cases hge : ovr ≤ binomSF n trd n
  · rw [if_pos hge, if_neg (by omega : ¬ n + 1 ≤ n)]
  · rw [if_neg hge]
    show scanLoop (greaterCond n trd ovr) (0 + 1) (n + 1) = _
    rw [scanLoop_succ, greaterCond_err_beyond (by omega : n < n + 1)]

lemma findThreshold_less_no_crossing {n : ℕ} {trd ovr : ℚ}
    (h0 : 0 < trd) (h1 : trd < 1)
    (hnc : ∀ j, j < n → ¬(binomCDF n trd j < ovr ∧ ovr ≤ binomCDF n trd (j + 1))) :
    findThreshold n trd ovr "less" =
      .error (.invalidParameter "k must not be greater than n") := by
  rw [findThreshold, if_pos rfl]
  have hcond : ∀ j, 0 ≤ j → j < 0 + n → lessCond n trd ovr j = .ok false := by
    intro j _ hj
    rw [Nat.zero_add] at hj
    rw [lessCond_eq (by omega) h0 h1]
    by_cases hlt : binomCDF n trd j < ovr
    · rw [if_pos hlt, if_pos (by omega : j + 1 ≤ n),
        decide_eq_false (fun hc => hnc j hj ⟨hlt, hc⟩)]
    · rw [if_neg hlt]
  have hskip := scanLoop_skip (lessCond n trd ovr) n 2 0 hcond
  rw [Nat.zero_add] at hskip
  calc scanLoop (lessCond n trd ovr) (n + 2) 0
      = scanLoop (lessCond n trd ovr) 2 n := hskip
    _ = .error (.invalidParameter "k must not be greater than n") :=
        scanLoop_less_from_n h0 h1

lemma findThreshold_greater_no_crossing {n : ℕ} {trd ovr : ℚ}
    (h0 : 0 < trd) (h1 : trd < 1)
    (hnc : ∀ j, j < n → ¬(ovr ≤ binomSF n trd j ∧ binomSF n trd (j + 1) < ovr)) :
    findThreshold n trd ovr "greater" =
      .error (.invalidParameter "k must not be greater than n") := by
  rw [findThreshold, if_neg (by decide : ¬("greater" : String) = "less"), if_pos rfl]
  have hcond : ∀ j, 0 ≤ j → j < 0 + n → greaterCond n trd ovr j = .ok false := by
    intro j _ hj
    rw [Nat.zero_add] at hj
    rw [greaterCond_eq (by omega) h0 h1]
    by_cases hge : ovr ≤ binomSF n trd j
    · rw [if_pos hge, if_pos (by omega : j + 1 ≤ n),
        decide_eq_false (fun hc => hnc j hj ⟨hge, hc⟩)]
    · rw [if_neg hge]
  have hskip := scanLoop_skip (greaterCond n trd ovr) n 2 0 hcond
  rw [Nat.zero_add] at hskip
  calc scanLoop (greaterCond n trd ovr) (n + 2) 0
      = scanLoop (greaterCond n trd ovr) 2 n := hskip
    _ = .error (.invalidParameter "k must not be greater than n") :=
        scanLoop_greater_from_n h0 h1

lemma lessCond_ok_true_inv {n : ℕ} {trd ovr : ℚ} {k : ℕ}
    (h : lessCond n trd ovr k = .ok true) :
    k + 1 ≤ n ∧ 0 < trd ∧ trd < 1 ∧
      binomCDF n trd k < ovr ∧ ovr ≤ binomCDF n trd (k + 1) := by
  unfold lessCond at h
  split at h
  · simp at h
  · rename_i p1 heq
    obtain ⟨hkn, hp0, hp1, rfl⟩ := binomtest_less_ok_inv heq
    split at h
    · rename_i hlt
      split at h
      · simp at h
      · rename_i p2 heq2
        obtain ⟨hkn2, -, -, rfl⟩ := binomtest_less_ok_inv heq2
        simp only [Except.ok.injEq, decide_eq_true_eq] at h
        exact ⟨hkn2, hp0, hp1, hlt, h⟩
    · simp at h

lemma lessCond_ok_false_inv {n : ℕ} {trd ovr : ℚ} {k : ℕ}
    (h : lessCond n trd ovr k = .ok false) :
    ¬(binomCDF n trd k < ovr ∧ ovr ≤ binomCDF n trd (k + 1)) := by
  unfold lessCond at h
  split at h
  · simp at h
  · rename_i p1 heq
    obtain ⟨hkn, hp0, hp1, rfl⟩ := binomtest_less_ok_inv heq
    split at h
    · rename_i hlt
      split at h
      · simp at h
      · rename_i p2 heq2
        obtain ⟨-, -, -, rfl⟩ := binomtest_less_ok_inv heq2
        simp only [Except.ok.injEq, decide_eq_false_iff_not] at h
        exact fun hc => h hc.2
    · rename_i hlt
      exact fun hc => hlt hc.1

lemma greaterCond_ok_true_inv {n : ℕ} {trd ovr : ℚ} {k : ℕ}
    (h : greaterCond n trd ovr k = .ok true) :
    k + 1 ≤ n ∧ 0 < trd ∧ trd < 1 ∧
      ovr ≤ binomSF n trd k ∧ binomSF n trd (k + 1) < ovr := by
  unfold greaterCond at h
  split at h
  · simp at h
  · rename_i p1 heq
    obtain ⟨hkn, hp0, hp1, rfl⟩ := binomtest_greater_ok_inv heq
    split at h
    · rename_i hge
      split at h
      · simp at h
      · rename_i p2 heq2
        obtain ⟨hkn2, -, -, rfl⟩ := binomtest_greater_ok_inv heq2
        simp only [Except.ok.injEq, decide_eq_true_eq] at h
        exact ⟨hkn2, hp0, hp1, hge, h⟩
    · simp at h

lemma greaterCond_ok_false_inv {n : ℕ} {trd ovr : ℚ} {k : ℕ}
    (h : greaterCond n trd ovr k = .ok false) :
    ¬(ovr ≤ binomSF n trd k ∧ binomSF n trd (k + 1) < ovr) := by
  unfold greaterCond at h
  split at h
  · simp at h
  · rename_i p1 heq
    obtain ⟨hkn, hp0, hp1, rfl⟩ := binomtest_greater_ok_inv heq
    split at h
    · rename_i hge
      split at h
      · simp at h
      · rename_i p2 heq2
        obtain ⟨-, -, -, rfl⟩ := binomtest_greater_ok_inv heq2
        simp only [Except.ok.injEq, decide_eq_false_iff_not] at h
        exact fun hc => h hc.2
    · rename_i hge
      exact fun hc => hge hc.1

/-- The scan returns the first k (from the start index upward) whose guard
holds; every index passed on the way had a guard that evaluated to false. -/
lemma scanLoop_ok (cond : ℕ → Except FamError Bool) :
    ∀ (fuel k0 k : ℕ), scanLoop cond fuel k0 = .ok k →
      k0 ≤ k ∧ cond k = .ok true ∧ ∀ j, k0 ≤ j → j < k → cond j = .ok false := by
  intro fuel
  induction fuel with
  | zero => intro k0 k h; simp [scanLoop] at h
  | succ fuel ih =>
    intro k0 k h
    rw [scanLoop] at h
    cases hc : cond k0 with
    | error e => rw [hc] at h; simp at h
    | ok b =>
      rw [hc] at h
      cases b with
      | true =>
        simp only [Except.ok.injEq] at h
        subst h
        exact ⟨le_rfl, hc, fun j hj1 hj2 => absurd hj2 (by omega)⟩
      | false =>
        obtain ⟨h1, h2, h3⟩ := ih (k0 + 1) k h
        refine ⟨by omega, h2, fun j hj1 hj2 => ?_⟩
        rcases Nat.eq_or_lt_of_le hj1 with heq | hlt
        · rw [← heq]; exact hc
        · exact h3 j (by omega) hj2

/-- Strip the stateful wrapper: a successful `allowed_deviations` call is a
successful `findThreshold` search on the instance's fields. -/
lemma allowed_deviations_ok_inv {s : fam450ss} {alt : String} {k : ℕ}
    (h : (s.allowed_deviations alt).1 = .ok k) :
    findThreshold s.n s.trd s.ovr alt = .ok k := by
  unfold fam450ss.allowed_deviations at h
  split at h
  · rename_i k0 heq
    simp only [Except.ok.injEq] at h
    rw [← h]; exact heq
  · simp at h

/-- Claim C1: for every n ≥ 1, trd in (0,1), ovr in (0,1) such that
`allowed_deviations(alt='less')` returns a value, the returned k satisfies
P(X ≤ k) < ovr and P(X ≤ k+1) ≥ ovr under X ~ Binomial(n, trd), and k is
the least integer with this property (the scan starts at k = 0 and returns
the first such k). -/
theorem allowed_deviations_less_first_crossing
    (s : fam450ss) (k : ℕ)
    (hn : 1 ≤ s.n) (ht0 : 0 < s.trd) (ht1 : s.trd < 1)
    (ho0 : 0 < s.ovr) (ho1 : s.ovr < 1)
    (h : (s.allowed_deviations "less").1 = .ok k) :
    (binomCDF s.n s.trd k < s.ovr ∧ s.ovr ≤ binomCDF s.n s.trd (k + 1)) ∧
      ∀ j, j < k →
        ¬(binomCDF s.n s.trd j < s.ovr ∧ s.ovr ≤ binomCDF s.n s.trd (j + 1)) := by
  have hf := allowed_deviations_ok_inv h
  rw [findThreshold, if_pos rfl] at hf
  obtain ⟨-, h2, h3⟩ := scanLoop_ok _ _ _ _ hf
  obtain ⟨-, -, -, hc1, hc2⟩ := lessCond_ok_true_inv h2
  exact ⟨⟨hc1, hc2⟩, fun j hj => lessCond_ok_false_inv (h3 j (Nat.zero_le j) hj)⟩

/-- Witness for C1: at n = 2, trd = 1/2, ovr = 1/2 the "less" search
returns 0, and the crossing property holds there. -/
theorem allowed_deviations_less_first_crossing_witness :
    (binomCDF 2 (1/2) 0 < (1/2 : ℚ) ∧ (1/2 : ℚ) ≤ binomCDF 2 (1/2) (0 + 1)) ∧
      ∀ j, j < 0 →
        ¬(binomCDF 2 (1/2) j < (1/2 : ℚ) ∧ (1/2 : ℚ) ≤ binomCDF 2 (1/2) (j + 1)) :=
  allowed_deviations_less_first_crossing (fam450ss.init 2 (1/2) (1/2)) 0
    (by decide) (by decide) (by decide) (by decide) (by decide) (by decide)

/-- Claim C2: for every n ≥ 1, trd in (0,1), ovr in (0,1) such that
`allowed_deviations(alt='greater')` returns a value, the returned k
satisfies P(X ≥ k) ≥ ovr and P(X ≥ k+1) < ovr under X ~ Binomial(n, trd),
and k is the least integer with this property (the scan starts at k = 0
and returns the first such k). -/
theorem allowed_deviations_greater_first_crossing
    (s : fam450ss) (k : ℕ)
    (hn : 1 ≤ s.n) (ht0 : 0 < s.trd) (ht1 : s.trd < 1)
    (ho0 : 0 < s.ovr) (ho1 : s.ovr < 1)
    (h : (s.allowed_deviations "greater").1 = .ok k) :
    (s.ovr ≤ binomSF s.n s.trd k ∧ binomSF s.n s.trd (k + 1) < s.ovr) ∧
      ∀ j, j < k →
        ¬(s.ovr ≤ binomSF s.n s.trd j ∧ binomSF s.n s.trd (j + 1) < s.ovr) := by
  have hf := allowed_deviations_ok_inv h
  rw [findThreshold, if_neg (by decide : ¬("greater" : String) = "less"),
    if_pos rfl] at hf
  obtain ⟨-, h2, h3⟩ := scanLoop_ok _ _ _ _ hf
  obtain ⟨-, -, -, hc1, hc2⟩ := greaterCond_ok_true_inv h2
  exact ⟨⟨hc1, hc2⟩, fun j hj => greaterCond_ok_false_inv (h3 j (Nat.zero_le j) hj)⟩

/-- Witness for C2: at n = 2, trd = 1/2, ovr = 1/2 the "greater" search
returns 1, and the crossing property holds there. -/
theorem allowed_deviations_greater_first_crossing_witness :
    ((1/2 : ℚ) ≤ binomSF 2 (1/2) 1 ∧ binomSF 2 (1/2) (1 + 1) < (1/2 : ℚ)) ∧
      ∀ j, j < 1 →
        ¬((1/2 : ℚ) ≤ binomSF 2 (1/2) j ∧ binomSF 2 (1/2) (j + 1) < (1/2 : ℚ)) :=
  allowed_deviations_greater_first_crossing (fam450ss.init 2 (1/2) (1/2)) 1
    (by decide) (by decide) (by decide) (by decide) (by decide) (by decide)

/-- Claim C3: for the specific input n=158, trd=0.05, ovr=0.1,
`allowed_deviations` returns 4 for alt='less' and 11 for alt='greater'. -/
theorem allowed_deviations_scenario_158 :
    ((fam450ss.init 158 0.05 0.1).allowed_deviations "less").1 = .ok 4 ∧
    ((fam450ss.init 158 0.05 0.1).allowed_deviations "greater").1 = .ok 11 :=
  ⟨by decide, by decide⟩

/-- Counterexample to claim C4 as stated: at n=1, trd=1/2, ovr=1/10 no
crossing point exists within [0, n], and the search does not fail with a
SearchExhausted error: it runs past n and surfaces the tail function's
k>n InvalidParameter error (there is no explicit bound in the loop
itself). -/
theorem no_search_exhausted_error_at_1 :
    ((fam450ss.init 1 (1/2) (1/10)).allowed_deviations "less").1 =
      .error (.invalidParameter "k must not be greater than n") := by decide

/-- Claim C4 (amended): the loop imposes no bound of its own; for validated
trd, whenever no crossing point exists within [0, n] the scan increments k
past n and terminates with the tail function's k>n InvalidParameter error
(raised at k = n or k = n+1), for both alternatives, rather than looping
forever or raising a SearchExhausted error. -/
theorem no_crossing_raises_tail_range_error
    (n : ℕ) (trd ovr : ℚ) (h0 : 0 < trd) (h1 : trd < 1) :
    ((∀ j, j < n → ¬(binomCDF n trd j < ovr ∧ ovr ≤ binomCDF n trd (j + 1))) →
      findThreshold n trd ovr "less" =
        .error (.invalidParameter "k must not be greater than n")) ∧
    ((∀ j, j < n → ¬(ovr ≤ binomSF n trd j ∧ binomSF n trd (j + 1) < ovr)) →
      findThreshold n trd ovr "greater" =
        .error (.invalidParameter "k must not be greater than n")) :=
  ⟨fun hnc => findThreshold_less_no_crossing h0 h1 hnc,
   fun hnc => findThreshold_greater_no_crossing h0 h1 hnc⟩

/-- Witness for the amended C4 at n=1, trd=1/2, ovr=1/10 (no crossing in
[0,1] for the "less" direction). -/
theorem no_crossing_raises_tail_range_error_witness :
    findThreshold 1 (1/2) (1/10) "less" =
      .error (.invalidParameter "k must not be greater than n") :=
  (no_crossing_raises_tail_range_error 1 (1/2) (1/10) (by decide) (by decide)).1
    (by decide)

/-- Counterexample to claim C5 as stated: constructing with the malformed
ovr = 1 (outside (0,1)) raises nothing at construction and nothing at
first use: the search completes and returns a threshold. -/
theorem malformed_ovr_silently_accepted :
    ((fam450ss.init 2 (1/2) 1).allowed_deviations "less").1 = .ok 1 := by decide

/-- Claim C5 (amended): the constructor performs no validation; malformed
n or trd are detected at the first search, through the modelled tail
function's InvalidParameter errors (trd outside (0,1) directly, n = 0
through the k>n range check), while a malformed ovr is not validated
anywhere and can be silently accepted (witnessed by ovr = 1 above). -/
theorem validation_only_at_first_use (n : ℕ) (trd ovr : ℚ) :
    ((trd ≤ 0 ∨ 1 ≤ trd) →
      findThreshold n trd ovr "less" =
          .error (.invalidParameter "p must be in range (0, 1)") ∧
      findThreshold n trd ovr "greater" =
          .error (.invalidParameter "p must be in range (0, 1)")) ∧
    (n = 0 → 0 < trd → trd < 1 →
      findThreshold n trd ovr "less" =
        .error (.invalidParameter "k must not be greater than n")) := by
  constructor
  · intro hp
    constructor
    · rw [findThreshold, if_pos rfl]
      show scanLoop (lessCond n trd ovr) (n + 1 + 1) 0 = _
      rw [scanLoop_succ, lessCond_err_p (Nat.zero_le n) hp]
    · rw [findThreshold, if_neg (by decide : ¬("greater" : String) = "less"), if_pos rfl]
      show scanLoop (greaterCond n trd ovr) (n + 1 + 1) 0 = _
      rw [scanLoop_succ, greaterCond_err_p (Nat.zero_le n) hp]
  · intro hn h0 h1
    subst hn
    rw [findThreshold, if_pos rfl]
    show scanLoop (lessCond 0 trd ovr) 2 0 = _
    exact scanLoop_less_from_n h0 h1

/-- Witness for the amended C5: trd = 2 (outside (0,1)) is rejected at the
first search. -/
theorem validation_only_at_first_use_witness :
    findThreshold 5 2 (1/10) "less" =
      .error (.invalidParameter "p must be in range (0, 1)") :=
  ((validation_only_at_first_use 5 2 (1/10)).1 (Or.inr (by norm_num))).1

/-- Claim C6: for every alt value other than 'less' and 'greater',
`allowed_deviations` raises a ValueError whose message names the
unsupported value, and performs no search: the result is the error and the
instance is unchanged, independent of the stored parameters. -/
theorem unsupported_alternative_raises (s : fam450ss) (alt : String)
    (h1 : alt ≠ "less") (h2 : alt ≠ "greater") :
    s.allowed_deviations alt =
      (.error (.valueError ("Unsupported alternative: " ++ alt)), s) := by
  unfold fam450ss.allowed_deviations
  rw [findThreshold, if_neg h1, if_neg h2]

/-- Witness for C6 with the unrecognized value "two-sided". -/
theorem unsupported_alternative_raises_witness :
    (fam450ss.init 1 (1/2) (1/2)).allowed_deviations "two-sided" =
      (.error (.valueError ("Unsupported alternative: " ++ "two-sided")),
        fam450ss.init 1 (1/2) (1/2)) :=
  unsupported_alternative_raises (fam450ss.init 1 (1/2) (1/2)) "two-sided"
    (by decide) (by decide)

/-- Claim C7: a fresh instance has no search result; on every instance
without a search result both reporting operations raise the ValueError
instructing the caller to run `allowed_deviations()` first; and a failed
search leaves the instance without a result (absence is the checkable
`none` state, not a sentinel value). -/
theorem reporting_before_search_raises
    (n : ℕ) (trd ovr : ℚ) (s : fam450ss) (alt : String) :
    (fam450ss.init n trd ovr).result = none ∧
    (s.result = none →
      s.detailed_results =
        .error (.valueError "You must run allowed_deviations() before detailed_results().") ∧
      s.simple_results =
        .error (.valueError "You must run allowed_deviations() before simple_results().")) ∧
    (∀ e, (s.allowed_deviations alt).1 = .error e → (s.allowed_deviations alt).2 = s) := by
  refine ⟨rfl, fun hres => ?_, fun e he => ?_⟩
  · unfold fam450ss.detailed_results fam450ss.simple_results
    rw [hres]
    exact ⟨rfl, rfl⟩
  · unfold fam450ss.allowed_deviations at he ⊢
    cases hf : findThreshold s.n s.trd s.ovr alt with
    | ok k => rw [hf] at he; simp at he
    | error e2 => rfl

/-- Witness for C7: the fresh Scenario-1 instance rejects detailed
reporting before any search. -/
theorem reporting_before_search_raises_witness :
    (fam450ss.init 158 (1/20) (1/10)).detailed_results =
      .error (.valueError "You must run allowed_deviations() before detailed_results().") ∧
    (fam450ss.init 158 (1/20) (1/10)).simple_results =
      .error (.valueError "You must run allowed_deviations() before simple_results().") :=
  (reporting_before_search_raises 158 (1/20) (1/10)
    (fam450ss.init 158 (1/20) (1/10)) "less").2.1 rfl

/-- Counterexample to claim C8 as stated: searching "less" and then
"greater" on the same instance overwrites the stored ("less", k) pair
with the greater result, so the first alternative's stored result does
not survive the second search. -/
theorem second_search_overwrites_stored_result :
    (((fam450ss.init 2 (1/2) (1/2)).allowed_deviations "less").2).result =
        some ("less", 0) ∧
    (((((fam450ss.init 2 (1/2) (1/2)).allowed_deviations "less").2).allowed_deviations
        "greater").2).result = some ("greater", 1) ∧
    (((((fam450ss.init 2 (1/2) (1/2)).allowed_deviations "less").2).allowed_deviations
        "greater").2).result ≠ some ("less", 0) :=
  ⟨by decide, by decide, by decide⟩

/-- Claim C8 (amended): the returned k of a search depends only on the
instance's (n, trd, ovr), never on a previously stored result, so the
second search's value is independent of the first; but each successful
search stores its own (alt, k) pair on the instance, overwriting any
prior stored result. -/
theorem search_independent_but_overwrites
    (s s2 : fam450ss) (alt : String)
    (hn : s.n = s2.n) (ht : s.trd = s2.trd) (ho : s.ovr = s2.ovr) :
    (s.allowed_deviations alt).1 = (s2.allowed_deviations alt).1 ∧
    (∀ k, (s.allowed_deviations alt).1 = .ok k →
      ((s.allowed_deviations alt).2).result = some (alt, k)) := by
  constructor
  · unfold fam450ss.allowed_deviations
    rw [hn, ht, ho]
    cases hf : findThreshold s2.n s2.trd s2.ovr alt with
    | ok k => rfl
    | error e => rfl
  · intro k hk
    have hf := allowed_deviations_ok_inv hk
    unfold fam450ss.allowed_deviations
    rw [hf]

/-- Witness for the amended C8: an instance carrying a stored "less"
result returns the same "greater" search value as a fresh instance with
the same parameters. -/
theorem search_independent_but_overwrites_witness :
    (({ n := 2, trd := 1/2, ovr := 1/2, result := some ("less", 0) } :
        fam450ss).allowed_deviations "greater").1 =
      ((fam450ss.init 2 (1/2) (1/2)).allowed_deviations "greater").1 :=
  (search_independent_but_overwrites
    { n := 2, trd := 1/2, ovr := 1/2, result := some ("less", 0) }
    (fam450ss.init 2 (1/2) (1/2)) "greater" rfl rfl rfl).1

/-- Claim C9: the zero-argument table builders return tables with row
index [45, 78, 105, 132, 158] (ascending) and the two tolerable-rate
columns, with values ([0,1,2,3,4]; [1,4,6,8,10]) for the LessThan table
and ([4,6,8,10,11]; [7,11,15,18,21]) for the GreaterThan table, all at
ovr = 0.1. -/
theorem standard_tables_reproduce :
    fam450lt = .ok (⟨"Sample Size", [45, 78, 105, 132, 158],
      ["Tolerable Deviation Rate of 5%", "Tolerable Deviation Rate of 10%"],
      [(0, 1), (1, 4), (2, 6), (3, 8), (4, 10)]⟩ : Fam450Table) ∧
    fam450gt = .ok (⟨"Sample Size", [45, 78, 105, 132, 158],
      ["Tolerable Deviation Rate of 5%", "Tolerable Deviation Rate of 10%"],
      [(4, 7), (6, 11), (8, 15), (10, 18), (11, 21)]⟩ : Fam450Table) :=
  ⟨by decide, by decide⟩

/-- Claim C10: after a successful allowed_deviations(alt='less') on
n=158, trd=0.05, ovr=0.1, the detailed reporting operation renders
exactly the fixed Scenario 3 text, character for character. -/
theorem detailed_results_scenario3 :
    (((fam450ss.init 158 0.05 0.1).allowed_deviations "less").2).detailed_results =
      .ok "Null Hypothesis: The true tolerable rate of deviation is 5% or more.\nAlternative Hypothesis: The true tolerable rate of deviation is less than 5%.\n\nIf the experimenter observes 4 deviations or less in a sample size of 158 (2.53%), they can reject with 90% confidence the null hypothesis that the true tolerable rate of deviation is 5% or more in favor of the alternative that it\x27s less than 5%.  If the experimenter observes more than 4 deviations, they fail to reject the null hypothesis, but cannot say the true tolerable rate of deviation is 5% or more." := by
  decide

end Fam450

